import Mathlib

/-!
Verification of the room occupancy / lighting-control core of the
`hnefatl/appdaemon` repository, shallowly embedded from the Python source.

Modelling conventions:
* An entity identifier is a `String`; the platform's entity-state store
  (`hass.get_state`) is a total function `String → String`.
* Timestamps (`datetime.datetime`) are `Int` seconds relative to the Unix
  epoch; `datetime.datetime.min` (0001-01-01T00:00:00) is the constant
  `datetimeMin`.  Timedeltas are `Int` seconds.
* A Python exception (e.g. `ValueError` from `float(...)`, `min` of an empty
  sequence, a failed `assert`, or the `TypeError` raised by the one-argument
  `Room._log`/`_verbose_log` calls to `typed_hass.Hass.log`, whose `level`
  parameter has no default) is modelled with `Except String` / an error
  component.  The scene service logs through `info_log`, which passes
  `level` correctly and is therefore effect-free.
* Side effects on the platform (`call_service`, `fire_event`, `turn_on`) are
  collected in a returned `List Effect`; handlers map an input state to a
  result state plus the effects performed.
-/

namespace AppDaemon

abbrev EntityId := String

/-- The platform's entity state store: `hass.get_state`. -/
abbrev HassState := EntityId → String

/-- A side effect requested from the platform by a handler. -/
inductive Effect where
  /-- `hass.fire_event(event=..., rooms=[...])` -/
  | fireEvent (event : String) (rooms : List String)
  /-- `hass.call_service(service=..., transition?, target entity or area)` -/
  | callService (service : String) (transition : Option Int) (target : String)
  deriving DecidableEq, Repr

/-! ### ActivitySensor (`apps/lights.py`) -/

/-- Model of Python `float(s)` on plain decimal literals (optional sign,
digits, optional fractional part).  `none` models a raised `ValueError`;
exponent/`inf`/`nan` forms are irrelevant to the configured sensors. -/
def parsePyFloatCore (cs : List Char) : Option ℚ :=
  let intPart := cs.takeWhile Char.isDigit
  let rest := cs.dropWhile Char.isDigit
  let intVal : ℚ := (Nat.ofDigits 10 ((intPart.map (fun c => c.toNat - '0'.toNat)).reverse) : ℚ)
  match rest with
  | [] => if intPart.isEmpty then none else some intVal
  | '.' :: frac =>
    if frac.all Char.isDigit && !(intPart.isEmpty && frac.isEmpty) then
      some (intVal +
        (Nat.ofDigits 10 ((frac.map (fun c => c.toNat - '0'.toNat)).reverse) : ℚ)
          / ((10 : ℚ) ^ frac.length))
    else none
  | _ => none

def parsePyFloat (s : String) : Option ℚ :=
  match s.data with
  | '-' :: cs => (parsePyFloatCore cs).map Neg.neg
  | '+' :: cs => parsePyFloatCore cs
  | cs => parsePyFloatCore cs

/-- `ActivitySensor`: an entity plus a predicate over the platform state and
the entity's current value.  The predicate returns `Except` because Python
predicates may raise (numeric parse failures). -/
structure ActivitySensor where
  entity : EntityId
  predicate : HassState → String → Except String Bool
  descriptor : String

namespace ActivitySensor

/-- `is_active`: evaluate the predicate against the entity's live value. -/
def is_active (a : ActivitySensor) (hass : HassState) : Except String Bool :=
  a.predicate hass (hass a.entity)

/-- `ActivitySensor.is_on`: current value == "on". -/
def is_on (entity : EntityId) : ActivitySensor :=
  ⟨entity, fun _ s => .ok (s == "on"), "is on"⟩

/-- `ActivitySensor.is_off`: current value == "off". -/
def is_off (entity : EntityId) : ActivitySensor :=
  ⟨entity, fun _ s => .ok (s == "off"), "is off"⟩

/-- `ActivitySensor.isnt_off`: current value != "off". -/
def isnt_off (entity : EntityId) : ActivitySensor :=
  ⟨entity, fun _ s => .ok (s != "off"), "isn't off"⟩

/-- `ActivitySensor.is_below`: `float(s) < threshold`; the `float` call raises
`ValueError` on an unparsable value. -/
def is_below (entity : EntityId) (threshold : ℚ) : ActivitySensor :=
  ⟨entity,
    fun _ s =>
      match parsePyFloat s with
      | some v => .ok (decide (v < threshold))
      | none => .error "ValueError",
    "< " ++ toString threshold⟩

/-- `ActivitySensor.is_above`: `float(s) > threshold`. -/
def is_above (entity : EntityId) (threshold : ℚ) : ActivitySensor :=
  ⟨entity,
    fun _ s =>
      match parsePyFloat s with
      | some v => .ok (decide (threshold < v))
      | none => .error "ValueError",
    "> " ++ toString threshold⟩

/-- `ActivitySensor.compared_to`: binary predicate over this entity's value
and another entity's live value. -/
def compared_to (entity : EntityId) (other : EntityId)
    (comparator : String → String → Except String Bool) (descriptor : String) :
    ActivitySensor :=
  ⟨entity, fun h s => comparator s (h other), descriptor⟩

end ActivitySensor

/-! ### Room (`apps/lights.py`) -/

/-- `datetime.datetime.min` (0001-01-01T00:00:00) in seconds relative to the
Unix epoch. -/
def datetimeMin : Int := -62135596800

/-- The polymorphic light-control mechanism: `LightGroupRoom` (a named
area/group) or `SwitchLightRoom` (a single switch entity). -/
inductive RoomKind where
  | lightGroup (areaName : String)
  | switchLight (switchName : EntityId)
  deriving DecidableEq, Repr

/-- The immutable configuration of a `Room` from `Room.__init__`. -/
structure RoomConfig where
  name : String
  /-- `no_motion_timeout` in seconds. -/
  noMotionTimeout : Int
  motionSensors : List EntityId
  activitySensors : List ActivitySensor
  lightsOnlyIf : List ActivitySensor
  manualControlInputBoolean : Option EntityId
  kind : RoomKind

/-- The mutable runtime state of a `Room`: the `_last_motions` map (in dict
insertion order) and the `_lights_on` belief flag. -/
structure RoomState where
  lastMotions : List (EntityId × Int)
  lightsOn : Bool
  deriving DecidableEq, Repr

/-- `Room.__init__` argument handling: default motion sensor set and the
derived manual-control `input_boolean` entity. -/
def mkRoomConfig (name : String) (noMotionTimeout : Int)
    (motionSensors : Option (List EntityId))
    (activitySensors : List ActivitySensor)
    (lightsOnlyIf : List ActivitySensor)
    (hasManualControlToggle : Bool) (kind : RoomKind) : RoomConfig :=
  { name := name
    noMotionTimeout := noMotionTimeout
    motionSensors := motionSensors.getD ["binary_sensor." ++ name ++ "_motion_occupancy"]
    activitySensors := activitySensors
    lightsOnlyIf := lightsOnlyIf
    manualControlInputBoolean :=
      if hasManualControlToggle then some ("input_boolean." ++ name ++ "_manual_control")
      else none
    kind := kind }

/-- `_are_lights_off`, per room kind. -/
def areLightsOff : RoomKind → HassState → Bool
  | .lightGroup areaName, hass => hass ("group." ++ areaName ++ "_lights") == "off"
  | .switchLight switchName, hass => hass switchName == "off"

/-- The tail of `Room.__init__`: `_last_motions` maps every configured motion
sensor to `datetime.datetime.min`, and `_lights_on` is initialised to
`self._are_lights_off()` (as written in the source). -/
def initRoomState (cfg : RoomConfig) (hass : HassState) : RoomState :=
  { lastMotions := cfg.motionSensors.map (fun s => (s, datetimeMin))
    lightsOn := areLightsOff cfg.kind hass }

/-- `LightGroupRoom._turn_on_lights` / `SwitchLightRoom._turn_on_lights`. -/
def turnOnLights : RoomKind → String → RoomState → RoomState × List Effect
  | .lightGroup _, name, st =>
    ({ st with lightsOn := true }, [.fireEvent "default_scene_turn_on" [name]])
  | .switchLight switchName, _, st =>
    ({ st with lightsOn := true }, [.callService "switch/turn_on" none switchName])

/-- `LightGroupRoom._turn_off_lights` / `SwitchLightRoom._turn_off_lights`. -/
def turnOffLights : RoomKind → RoomState → RoomState × List Effect
  | .lightGroup areaName, st =>
    ({ st with lightsOn := false }, [.callService "light/turn_off" (some 5) areaName])
  | .switchLight switchName, st =>
    ({ st with lightsOn := false }, [.callService "switch/turn_off" none switchName])

/-- `Room.manual_control_enabled`. -/
def manualControlEnabled (cfg : RoomConfig) (hass : HassState) : Bool :=
  match cfg.manualControlInputBoolean with
  | none => false
  | some entity => hass entity == "on"

/-- Left-to-right evaluation of the `is_active` list comprehensions in
`_get_active_sensors` (`keepActive = true`) and
`_get_inactive_required_sensors` (`keepActive = false`); a raised exception
propagates. -/
def filterByActivity (hass : HassState) (keepActive : Bool) :
    List ActivitySensor → Except String (List ActivitySensor)
  | [] => .ok []
  | a :: rest =>
    match a.is_active hass with
    | .error e => .error e
    | .ok b =>
      match filterByActivity hass keepActive rest with
      | .error e => .error e
      | .ok l => .ok (if b == keepActive then a :: l else l)

/-- Python dict assignment `m[k] = v`: update in place, or append a new key. -/
def updateAssoc (m : List (EntityId × Int)) (k : EntityId) (v : Int) :
    List (EntityId × Int) :=
  if m.any (fun p => p.1 == k) then m.map (fun p => if p.1 == k then (k, v) else p)
  else m ++ [(k, v)]

/-- `min` over a list; `none` models `ValueError` on an empty sequence. -/
def listMin : List Int → Option Int
  | [] => none
  | x :: xs =>
    some (match listMin xs with
      | none => x
      | some m => min x m)

/-- The `TypeError` raised by `Room._log` and `Room._verbose_log`:
`typed_hass.Hass.log(self, message, level)` declares `level` with no default
(`typed_hass.py:112`), but `lights.py:206,210` call `self._hass.log(msg)`
with one argument, so every logged path in the `Room` handlers raises. -/
def logTypeError : String :=
  "TypeError: Hass.log missing 1 required positional argument: level"

/-- `_VERBOSE_LOG = True` (`lights.py:21`). -/
def VERBOSE_LOG : Bool := true

/-- `Room._log(msg)`: the one-argument `self._hass.log(msg)` call raises
`TypeError`. -/
def roomLog : Except String Unit := .error logTypeError

/-- `Room._verbose_log(msg)`: logs (and hence raises like `_log`) only when
`_VERBOSE_LOG` is set; it is `True` in the source. -/
def roomVerboseLog : Except String Unit :=
  if VERBOSE_LOG then roomLog else .ok ()

/-- Result of running a `Room` handler: final state, platform effects
performed, and the exception that escaped, if any.  Mutations and effects
that happened before a raise are kept, matching Python execution order. -/
structure RoomResult where
  state : RoomState
  effects : List Effect
  error : Option String
  deriving DecidableEq, Repr

/-- Sequence a log call: on a raise, execution stops with the state and
effects accumulated so far. -/
def afterLog (st : RoomState) (effs : List Effect)
    (logResult : Except String Unit) (k : Unit → RoomResult) : RoomResult :=
  match logResult with
  | .error e => ⟨st, effs, some e⟩
  | .ok _ => k ()

/-- `Room.on_room_motion` (with its `skip_if_manual_control_enabled`
decorator).  Every log call is the raising one-argument `Hass.log`. -/
def onRoomMotion (cfg : RoomConfig) (hass : HassState) (now : Int)
    (st : RoomState) (entityId : String) : RoomResult :=
  if manualControlEnabled cfg hass then
    afterLog st [] roomLog (fun _ => ⟨st, [], none⟩)
  else
    let st1 : RoomState := { st with lastMotions := updateAssoc st.lastMotions entityId now }
    match filterByActivity hass false cfg.lightsOnlyIf with
    | .error e => ⟨st1, [], some e⟩
    | .ok inactiveRequiredSensors =>
      if !inactiveRequiredSensors.isEmpty then
        afterLog st1 [] roomVerboseLog (fun _ => ⟨st1, [], none⟩)
      else
        let lightsOff := areLightsOff cfg.kind hass
        if lightsOff || !st1.lightsOn then
          afterLog st1 [] roomLog (fun _ =>
            afterLog st1 [] (if !st1.lightsOn then roomVerboseLog else .ok ())
              (fun _ =>
                let r := turnOnLights cfg.kind cfg.name st1
                ⟨r.1, r.2, none⟩))
        else
          afterLog st1 [] roomVerboseLog (fun _ => ⟨st1, [], none⟩)

/-- `Room.on_room_no_motion` (with its decorator). -/
def onRoomNoMotion (cfg : RoomConfig) (hass : HassState) (st : RoomState) :
    RoomResult :=
  if manualControlEnabled cfg hass then
    afterLog st [] roomLog (fun _ => ⟨st, [], none⟩)
  else
    match filterByActivity hass true cfg.activitySensors with
    | .error e => ⟨st, [], some e⟩
    | .ok activeDevices =>
      if !activeDevices.isEmpty then
        afterLog st [] roomVerboseLog (fun _ => ⟨st, [], none⟩)
      else
        afterLog st [] roomLog (fun _ =>
          let r := turnOffLights cfg.kind st
          ⟨r.1, r.2, none⟩)

/-- `Room.on_activity_sensor_change` (with its decorator). -/
def onActivitySensorChange (cfg : RoomConfig) (hass : HassState) (now : Int)
    (st : RoomState) (_entity : String) : RoomResult :=
  if manualControlEnabled cfg hass then
    afterLog st [] roomLog (fun _ => ⟨st, [], none⟩)
  else
    match filterByActivity hass true cfg.activitySensors with
    | .error e => ⟨st, [], some e⟩
    | .ok activeDevices =>
      if !activeDevices.isEmpty then
        afterLog st [] roomLog (fun _ => ⟨st, [], none⟩)
      else
        match listMin (st.lastMotions.map (fun p => now - p.2)) with
        | none => ⟨st, [], some "ValueError"⟩
        | some timeSinceLastMotion =>
          if timeSinceLastMotion > cfg.noMotionTimeout then
            afterLog st [] roomLog (fun _ =>
              let r := turnOffLights cfg.kind st
              ⟨r.1, r.2, none⟩)
          else
            afterLog st [] roomVerboseLog (fun _ => ⟨st, [], none⟩)

/-! ### Default scene service (`apps/default_scene_service.py`) -/

/-- `between_hours(now, start, end)`: handle wraparound when comparing hours. -/
def betweenHours (now start endHour : Int) : Bool :=
  if start < endHour then decide (start ≤ now) && decide (now < endHour)
  else decide (start ≤ now) || decide (now < endHour)

/-- The `Room` enum of `default_scene_service.py`, in declaration order. -/
inductive RoomName where
  | bedroom | living_room | office | corridor | entrance | bathroom | kitchen
  deriving DecidableEq, Repr

/-- `enum.auto()` values, assigned 1.. in declaration order. -/
def RoomName.value : RoomName → Int
  | .bedroom => 1
  | .living_room => 2
  | .office => 3
  | .corridor => 4
  | .entrance => 5
  | .bathroom => 6
  | .kitchen => 7

/-- `room.name.lower()`. -/
def RoomName.lowerName : RoomName → String
  | .bedroom => "bedroom"
  | .living_room => "living_room"
  | .office => "office"
  | .corridor => "corridor"
  | .entrance => "entrance"
  | .bathroom => "bathroom"
  | .kitchen => "kitchen"

/-- `ROOM_NAME_MAPPING = {room.name.lower(): room for room in list(Room)}`. -/
def roomNameMapping : List (String × RoomName) :=
  [RoomName.bedroom, .living_room, .office, .corridor, .entrance, .bathroom,
    .kitchen].map (fun r => (r.lowerName, r))

/-- `typed_hass.Scene` prefixes its argument with `"Scene."` (sic: capital S,
per `make_typed_entity_id("Scene")` in `typed_hass.py`). -/
def sceneEntity (s : String) : EntityId := "Scene." ++ s

/-- Start of "today" as a timestamp:
`datetime.datetime.combine(datetime.date.today(), datetime.datetime.min.time()).timestamp()`
for a clock reading `now` seconds since the epoch (days are modelled as fixed
86400-second UTC days). -/
def startOfDayTimestamp (now : Int) : Int := 86400 * Int.fdiv now 86400

/-- `datetime.datetime.now().hour` for a clock reading `now`. -/
def hourOf (now : Int) : Int := Int.fdiv (Int.emod now 86400) 3600

/-- `datetime.datetime.now().weekday()` (Monday = 0; 1970-01-01 was a
Thursday, weekday 3). -/
def weekdayOf (now : Int) : Int := Int.emod (Int.fdiv now 86400 + 3) 7

/-- A model of `random.Random(seed).choices(sequence, weights)`: a pure
function of the seed, the population and the weights.  The standard-library
Mersenne Twister is outside the repository; all theorems hold for every such
function. -/
abbrev RandChoices (T : Type) := Int → List T → List Nat → List T

/-- `get_day_stable_random(seed, values)`: seed a generator with the
start-of-day timestamp plus the given seed and take one weighted choice; the
`assert len(choices) == 1` is modelled by the error branch. -/
def get_day_stable_random {T : Type} (randChoices : RandChoices T) (now : Int)
    (seed : Int) (values : List (T × Nat)) : Except String T :=
  let todaySeed := startOfDayTimestamp now
  let choices := randChoices (todaySeed + seed) (values.map Prod.fst) (values.map Prod.snd)
  match choices with
  | [c] => .ok c
  | _ => .error "AssertionError"

/-- `get_day_stable_random_uniform(seed, values)`: every value gets weight 1
(the `set` is modelled as a list in the order written in the source). -/
def get_day_stable_random_uniform {T : Type} (randChoices : RandChoices T)
    (now : Int) (seed : Int) (values : List T) : Except String T :=
  get_day_stable_random randChoices now seed (values.map (fun x => (x, 1)))

/-- The environment a `DefaultSceneService` callback reads: the entity-state
store, the wall clock, and the random generator model. -/
structure SceneEnv where
  hass : HassState
  now : Int
  randChoices : RandChoices String

/-- `DefaultSceneService._get_boolean_state`. -/
def getBooleanState (env : SceneEnv) (entityId : EntityId) : Bool :=
  env.hass entityId == "on"

/-- The living-room scene pool, in source order. -/
def livingRoomScenes : List String :=
  [sceneEntity "living_room_arctic_aurora", sceneEntity "living_room_ibiza",
    sceneEntity "living_room_savanna_sunset", sceneEntity "living_room_soho",
    sceneEntity "living_room_spring_blossom",
    sceneEntity "living_room_tropical_twilight"]

/-- The office scene pool, in source order. -/
def officeScenes : List String :=
  [sceneEntity "office_arctic_aurora", sceneEntity "office_savanna_sunset",
    sceneEntity "office_soho", sceneEntity "office_spring_blossom",
    sceneEntity "office_tropical_twilight"]

/-- `DefaultSceneService._get_default_scene_for_room`. -/
def getDefaultSceneForRoom (env : SceneEnv) (room : RoomName) :
    Except String (Option EntityId) :=
  let hour := hourOf env.now
  let keithAwake := getBooleanState env "input_boolean.keith_awake"
  let nighttimeLightsEnabled := getBooleanState env "input_boolean.nighttime_lights_enabled"
  let isWorkday := decide (weekdayOf env.now < 5) && getBooleanState env "input_boolean.workday"
  if (room == .corridor) && getBooleanState env "binary_sensor.octoprint_printing" then
    .ok (some (sceneEntity (room.lowerName ++ "_bright")))
  else if nighttimeLightsEnabled && betweenHours hour 0 6 then
    .ok (some (sceneEntity (room.lowerName ++ "_dim")))
  else if (room == .bedroom) && !keithAwake then
    .ok (some (sceneEntity "bedroom_dim"))
  else if room == .living_room then
    (get_day_stable_random_uniform env.randChoices env.now room.value livingRoomScenes).map some
  else if room == .office then
    let keithOoo := getBooleanState env "binary_sensor.keith_ooo"
    if isWorkday && decide (hour < 15) && !keithOoo then
      .ok (some (sceneEntity "office_concentrate"))
    else
      (get_day_stable_random_uniform env.randChoices env.now room.value officeScenes).map some
  else
    .ok (some (sceneEntity (room.lowerName ++ "_bright")))

/-- Dynamically-typed event payload values (`Dict[str, Any]` entries).  Only
the shapes the handler inspects are modelled. -/
inductive PyValue where
  | str (s : String)
  | int (n : Int)
  | list (l : List PyValue)
  | pynone

/-- `data.get(key, None)`. -/
def pyGet (data : List (String × PyValue)) (key : String) : PyValue :=
  (data.lookup key).getD .pynone

/-- The result of running an event callback: the platform effects performed,
plus the exception that escaped (if any).  Effects performed before a raised
`assert` are kept, matching Python execution order. -/
structure HandlerResult where
  effects : List Effect
  error : Option String
  deriving DecidableEq, Repr

/-- The per-room loop body of `_turn_on_default_scene`: assert each name is a
string, silently `continue` past unknown room names and `None` scenes,
otherwise `self.turn_on(entity_id=scene, **optional_transition)`. -/
def processRooms (env : SceneEnv) (transition : Option Int) :
    List PyValue → HandlerResult
  | [] => ⟨[], none⟩
  | .str s :: rest =>
    match roomNameMapping.lookup s with
    | none => processRooms env transition rest
    | some room =>
      match getDefaultSceneForRoom env room with
      | .error e => ⟨[], some e⟩
      | .ok none => processRooms env transition rest
      | .ok (some scene) =>
        let r := processRooms env transition rest
        ⟨.callService "homeassistant/turn_on" transition scene :: r.effects, r.error⟩
  | _ :: _ => ⟨[], some "AssertionError: room name must be a str"⟩

/-- `DefaultSceneService._turn_on_default_scene`. -/
def turnOnDefaultScene (env : SceneEnv) (data : List (String × PyValue)) :
    HandlerResult :=
  match pyGet data "rooms" with
  | .list roomNames =>
    match pyGet data "transition" with
    | .pynone => processRooms env none roomNames
    | .int n => processRooms env (some n) roomNames
    | _ => ⟨[], some "AssertionError: transition must be an int"⟩
  | _ => ⟨[], some "AssertionError: rooms must be a list"⟩

/-! ### Helper lemmas -/

theorem parsePyFloat_unknown : parsePyFloat "unknown" = none := rfl

/-- Sequencing a raising log: execution stops with the `TypeError` and the
state and effects accumulated so far, whatever the continuation. -/
theorem afterLog_roomLog (st : RoomState) (effs : List Effect)
    (k : Unit → RoomResult) : afterLog st effs roomLog k = ⟨st, effs, some logTypeError⟩ := rfl

/-- With `_VERBOSE_LOG = True`, `_verbose_log` raises like `_log`. -/
theorem afterLog_roomVerboseLog (st : RoomState) (effs : List Effect)
    (k : Unit → RoomResult) :
    afterLog st effs roomVerboseLog k = ⟨st, effs, some logTypeError⟩ := rfl

/-! ### Claim theorems -/

/-- C9: `between_hours(now, start, end)` returns true iff
(`start < end` and `start ≤ now < end`), or (`start ≥ end` and
(`now ≥ start` or `now < end`)): the active range is `[start, end)` in the
non-wraparound case and wraps around midnight when `start ≥ end`. -/
theorem betweenHours_spec (now start endHour : Int) :
    betweenHours now start endHour = true ↔
      ((start < endHour ∧ start ≤ now ∧ now < endHour) ∨
        (start ≥ endHour ∧ (now ≥ start ∨ now < endHour))) := by
  unfold betweenHours
  by_cases h : start < endHour <;> simp [h] <;> omega

/-- C8: for a fixed calendar day (two clock readings with the same
start-of-day), the same seed and the same weighted value map, two evaluations
of `get_day_stable_random` return the identical value, for every model of the
seeded random generator. -/
theorem get_day_stable_random_day_stable {T : Type} (randChoices : RandChoices T)
    (nowA nowB seed : Int) (values : List (T × Nat))
    (hday : Int.fdiv nowA 86400 = Int.fdiv nowB 86400) (hne : values ≠ []) :
    get_day_stable_random randChoices nowA seed values =
      get_day_stable_random randChoices nowB seed values := by
  unfold get_day_stable_random startOfDayTimestamp
  rw [hday]

theorem get_day_stable_random_day_stable_witness :
    Int.fdiv 1000 86400 = Int.fdiv 5000 86400 ∧
    ([("a", 2)] : List (String × Nat)) ≠ [] ∧
    get_day_stable_random (fun _ pop _ => pop.take 1) 1000 7 [("a", 2)] =
      get_day_stable_random (fun _ pop _ => pop.take 1) 5000 7 [("a", 2)] :=
  ⟨by decide, by simp,
    get_day_stable_random_day_stable (fun _ pop _ => pop.take 1) 1000 5000 7
      [("a", 2)] (by decide) (by simp)⟩

/-- The state store of a platform whose every entity reads `"unknown"`. -/
def unknownHass : HassState := fun _ => "unknown"

/-- C7 counterexample: an `isnt_off` sensor whose backing entity reads
`"unknown"` has `is_active = true` (since `"unknown" != "off"`), so it is NOT
treated as inactive as the claim states. -/
theorem isnt_off_unknown_is_active :
    (ActivitySensor.isnt_off "media_player.shield").is_active unknownHass =
      .ok true := rfl

/-- C7 amended: when the backing entity's state reads `"unknown"`, the
`is_on` and `is_off` sensors evaluate `is_active` to false, but `isnt_off`
evaluates to true (anything other than the literal `"off"` counts as active),
and `is_below` / `is_above` raise a `ValueError` from the numeric parse
rather than returning false; `compared_to` depends on its comparator. -/
theorem is_active_unknown_spec (entity : EntityId) (hass : HassState)
    (threshold : ℚ) (h : hass entity = "unknown") :
    (ActivitySensor.is_on entity).is_active hass = .ok false ∧
    (ActivitySensor.is_off entity).is_active hass = .ok false ∧
    (ActivitySensor.isnt_off entity).is_active hass = .ok true ∧
    (ActivitySensor.is_below entity threshold).is_active hass = .error "ValueError" ∧
    (ActivitySensor.is_above entity threshold).is_active hass = .error "ValueError" := by
  refine ⟨?_, ?_, ?_, ?_, ?_⟩ <;>
    simp [ActivitySensor.is_active, ActivitySensor.is_on, ActivitySensor.is_off,
      ActivitySensor.isnt_off, ActivitySensor.is_below, ActivitySensor.is_above,
      h, parsePyFloat_unknown]

theorem is_active_unknown_spec_witness :
    unknownHass "sensor.bathroom_humidity" = "unknown" ∧
    (ActivitySensor.is_on "sensor.bathroom_humidity").is_active unknownHass = .ok false ∧
    (ActivitySensor.isnt_off "sensor.bathroom_humidity").is_active unknownHass = .ok true ∧
    (ActivitySensor.is_below "sensor.bathroom_humidity" 5).is_active unknownHass =
      .error "ValueError" :=
  ⟨rfl, (is_active_unknown_spec "sensor.bathroom_humidity" unknownHass 5 rfl).1,
    (is_active_unknown_spec "sensor.bathroom_humidity" unknownHass 5 rfl).2.2.1,
    (is_active_unknown_spec "sensor.bathroom_humidity" unknownHass 5 rfl).2.2.2.1⟩

/-- C2: with the manual-control toggle enabled, each of the three handlers
performs zero service calls / fired events and leaves the room state (the
`_last_motions` map and the `_lights_on` belief flag) unchanged.  The
decorator's `self._log(...)` (`lights.py:199`) is itself the raising
one-argument `Hass.log` call, so each handler exits with that `TypeError`
rather than returning cleanly — but the state is untouched and no effect is
performed either way. -/
theorem manualControl_noop (cfg : RoomConfig) (hass : HassState) (now : Int)
    (st : RoomState) (motionEntity changedEntity : String)
    (hman : manualControlEnabled cfg hass = true) :
    onRoomMotion cfg hass now st motionEntity = ⟨st, [], some logTypeError⟩ ∧
    onRoomNoMotion cfg hass st = ⟨st, [], some logTypeError⟩ ∧
    onActivitySensorChange cfg hass now st changedEntity =
      ⟨st, [], some logTypeError⟩ := by
  unfold onRoomMotion onRoomNoMotion onActivitySensorChange
  simp [hman, afterLog_roomLog]

/-- The bedroom room configuration from `Lights.initialize`, which is the one
room with `has_manual_control_toggle=True` (its motion sensors and
`lights_only_if` list are irrelevant to the manual-control witness). -/
def manualCfg : RoomConfig :=
  mkRoomConfig "bedroom" 60 none [] [] true (.lightGroup "bedroom")

def manualHass : HassState :=
  fun e => if e == "input_boolean.bedroom_manual_control" then "on" else "off"

def manualSt : RoomState :=
  ⟨[("binary_sensor.bedroom_motion_occupancy", 0)], true⟩

theorem manualControl_noop_witness :
    manualControlEnabled manualCfg manualHass = true ∧
    onRoomMotion manualCfg manualHass 100 manualSt
      "binary_sensor.bedroom_motion_occupancy" =
      ⟨manualSt, [], some logTypeError⟩ ∧
    onRoomNoMotion manualCfg manualHass manualSt =
      ⟨manualSt, [], some logTypeError⟩ ∧
    onActivitySensorChange manualCfg manualHass 100 manualSt "switch.pc" =
      ⟨manualSt, [], some logTypeError⟩ :=
  ⟨by decide,
    (manualControl_noop manualCfg manualHass 100 manualSt
      "binary_sensor.bedroom_motion_occupancy" "switch.pc" (by decide)).1,
    (manualControl_noop manualCfg manualHass 100 manualSt
      "binary_sensor.bedroom_motion_occupancy" "switch.pc" (by decide)).2.1,
    (manualControl_noop manualCfg manualHass 100 manualSt
      "binary_sensor.bedroom_motion_occupancy" "switch.pc" (by decide)).2.2⟩

/-- The office room configuration from `Lights.initialize`: default motion
sensor, no activity or lights-only-if sensors, timeout 15 minutes. -/
def officeCfg : RoomConfig :=
  mkRoomConfig "office" 900 none [] [] false (.lightGroup "office")

/-- A platform where every entity reads `"off"`. -/
def quietHass : HassState := fun _ => "off"

def c1StBelievedOn : RoomState :=
  ⟨[("binary_sensor.office_motion_occupancy", 0)], true⟩

def c1StBelievedOff : RoomState :=
  ⟨[("binary_sensor.office_motion_occupancy", 0)], false⟩

/-- C1 evidence: in every case `on_room_motion` performs zero effects and
never modifies the belief flag — in particular, at the failing input (office
room, platform reporting lights off, belief flag false, i.e. the case where
the claim and the spec say the turn-on mechanism must fire) the handler only
records the motion timestamp and then raises the `TypeError` from the
one-argument `self._log(...)` at `lights.py:226`, before `_turn_on_lights()`
at `lights.py:231` can run. -/
theorem onRoomMotion_raises_before_turn_on :
    (∀ (cfg : RoomConfig) (hass : HassState) (now : Int) (st : RoomState)
      (entityId : String),
      (onRoomMotion cfg hass now st entityId).effects = [] ∧
      (onRoomMotion cfg hass now st entityId).state.lightsOn = st.lightsOn) ∧
    onRoomMotion officeCfg quietHass 50 c1StBelievedOff
      "binary_sensor.office_motion_occupancy" =
      ⟨⟨updateAssoc c1StBelievedOff.lastMotions
          "binary_sensor.office_motion_occupancy" 50, false⟩,
        [], some logTypeError⟩ := by
  constructor
  · intro cfg hass now st entityId
    unfold onRoomMotion
    cases hman : manualControlEnabled cfg hass
    · cases hf : filterByActivity hass false cfg.lightsOnlyIf with
      | error e => simp
      | ok l =>
        cases hl : l.isEmpty <;>
          cases hoff : areLightsOff cfg.kind hass <;>
          cases hon : st.lightsOn <;>
            simp [afterLog_roomLog, afterLog_roomVerboseLog, hoff, hon]
    · simp [afterLog_roomLog]
  · rfl

/-- C4: on a motion event with manual control disabled, after recording
`last_motion[sensor] = now`, if any lights-only-if sensor is inactive the
handler aborts with no further state change: no effect is performed, the
turn-on mechanism is not invoked and the belief flag is untouched, regardless
of the platform light state or the flag's value.  The abort happens via the
`TypeError` from `self._verbose_log(...)` at `lights.py:218` (the raising
one-argument `Hass.log`) rather than the `return` at `lights.py:221`. -/
theorem onRoomMotion_lights_only_if_abort (cfg : RoomConfig) (hass : HassState)
    (now : Int) (st : RoomState) (entityId : String)
    (hman : manualControlEnabled cfg hass = false)
    (l : List ActivitySensor)
    (hreq : filterByActivity hass false cfg.lightsOnlyIf = .ok l)
    (hne : l.isEmpty = false) :
    onRoomMotion cfg hass now st entityId =
      ⟨{ st with lastMotions := updateAssoc st.lastMotions entityId now },
        [], some logTypeError⟩ := by
  unfold onRoomMotion
  simp [hman, hreq, hne, afterLog_roomVerboseLog]

/-- The bedroom configuration from `Lights.initialize`, manual toggle aside:
`lights_only_if=[is_on("input_boolean.keith_awake")]`. -/
def bedroomCfgNoToggle : RoomConfig :=
  mkRoomConfig "bedroom" 60
    (some ["binary_sensor.bedroom_motion_occupancy",
      "binary_sensor.bedroom_entrance_motion_occupancy"])
    [] [ActivitySensor.is_on "input_boolean.keith_awake"] false
    (.lightGroup "bedroom")

theorem onRoomMotion_lights_only_if_abort_witness :
    manualControlEnabled bedroomCfgNoToggle quietHass = false ∧
    filterByActivity quietHass false bedroomCfgNoToggle.lightsOnlyIf =
      .ok [ActivitySensor.is_on "input_boolean.keith_awake"] ∧
    ([ActivitySensor.is_on "input_boolean.keith_awake"]).isEmpty = false ∧
    onRoomMotion bedroomCfgNoToggle quietHass 50 c1StBelievedOff
      "binary_sensor.bedroom_motion_occupancy" =
      ⟨{ c1StBelievedOff with
          lastMotions := updateAssoc c1StBelievedOff.lastMotions
            "binary_sensor.bedroom_motion_occupancy" 50 },
        [], some logTypeError⟩ :=
  ⟨rfl, rfl, rfl,
    onRoomMotion_lights_only_if_abort bedroomCfgNoToggle quietHass 50
      c1StBelievedOff "binary_sensor.bedroom_motion_occupancy" rfl
      [ActivitySensor.is_on "input_boolean.keith_awake"] rfl rfl⟩

/-- The living-room configuration from `Lights.initialize`. -/
def livingRoomCfg : RoomConfig :=
  mkRoomConfig "living_room" 900
    (some ["binary_sensor.living_room_motion_occupancy",
      "binary_sensor.reading_chair_motion_occupancy"])
    [ActivitySensor.isnt_off "media_player.shield",
      ActivitySensor.isnt_off "binary_sensor.ping_nintendo_switch",
      ActivitySensor.isnt_off "media_player.living_room_speaker",
      ActivitySensor.is_on "switch.pc"]
    [] false (.lightGroup "living_room")

/-- C5 evidence: `on_room_no_motion` never invokes the turn-off mechanism —
in every case it performs zero effects and leaves the room state unchanged.
At the failing input (living room, no active devices, i.e. the case where
the claim and the spec say turn-off must fire and the belief flag must be
cleared) the handler raises the `TypeError` from the one-argument
`self._log(...)` at `lights.py:246` before `_turn_off_lights()` at
`lights.py:249` can run. -/
theorem onRoomNoMotion_raises_before_turn_off :
    (∀ (cfg : RoomConfig) (hass : HassState) (st : RoomState),
      (onRoomNoMotion cfg hass st).effects = [] ∧
      (onRoomNoMotion cfg hass st).state = st) ∧
    onRoomNoMotion livingRoomCfg quietHass c1StBelievedOn =
      ⟨c1StBelievedOn, [], some logTypeError⟩ := by
  constructor
  · intro cfg hass st
    unfold onRoomNoMotion
    cases hman : manualControlEnabled cfg hass
    · cases hf : filterByActivity hass true cfg.activitySensors with
      | error e => simp
      | ok l =>
        cases hl : l.isEmpty <;>
          simp [hl, afterLog_roomLog, afterLog_roomVerboseLog]
    · simp [afterLog_roomLog]
  · rfl

/-- The living-room configuration with the 5-minute timeout of the spec's
minimum-across-sensors scenario. -/
def c3Cfg : RoomConfig :=
  mkRoomConfig "living_room" 300
    (some ["binary_sensor.living_room_motion_occupancy",
      "binary_sensor.reading_chair_motion_occupancy"])
    [ActivitySensor.isnt_off "media_player.shield",
      ActivitySensor.is_on "switch.pc"]
    [] false (.lightGroup "living_room")

/-- Sensor A quiet for 600 s, sensor B quiet for 60 s at `now = 1000`. -/
def c3St : RoomState :=
  ⟨[("binary_sensor.living_room_motion_occupancy", 400),
    ("binary_sensor.reading_chair_motion_occupancy", 940)], true⟩

/-- Sensor A quiet for 900 s, sensor B quiet for 600 s at `now = 1000`: the
minimum elapsed time (600 s) strictly exceeds the 300 s timeout. -/
def c3StaleSt : RoomState :=
  ⟨[("binary_sensor.living_room_motion_occupancy", 100),
    ("binary_sensor.reading_chair_motion_occupancy", 400)], true⟩

/-- C3 evidence: `on_activity_sensor_change` never invokes the turn-off
mechanism — in every case it performs zero effects and leaves the room state
unchanged.  At the failing input (minimum elapsed time 600 s over sensors
quiet for 900 s and 600 s, against a 300 s timeout, no active devices) the
handler raises the `TypeError` from the one-argument `self._log(...)` at
`lights.py:265` before `_turn_off_lights()` at `lights.py:270` can run; the
within-timeout case (minimum 60 s) likewise exits via the `_verbose_log`
`TypeError` at `lights.py:272`, with lights left on. -/
theorem activityChange_raises_before_turn_off :
    (∀ (cfg : RoomConfig) (hass : HassState) (now : Int) (st : RoomState)
      (changedEntity : String),
      (onActivitySensorChange cfg hass now st changedEntity).effects = [] ∧
      (onActivitySensorChange cfg hass now st changedEntity).state = st) ∧
    onActivitySensorChange c3Cfg quietHass 1000 c3StaleSt
      "media_player.shield" = ⟨c3StaleSt, [], some logTypeError⟩ ∧
    onActivitySensorChange c3Cfg quietHass 1000 c3St "media_player.shield" =
      ⟨c3St, [], some logTypeError⟩ := by
  refine ⟨?_, rfl, rfl⟩
  intro cfg hass now st changedEntity
  unfold onActivitySensorChange
  cases hman : manualControlEnabled cfg hass
  · cases hf : filterByActivity hass true cfg.activitySensors with
    | error e => simp
    | ok l =>
      cases hl : l.isEmpty
      · simp [hl, afterLog_roomLog]
      · cases hmin : listMin (st.lastMotions.map (fun p => now - p.2)) with
        | none => simp [hl, hmin]
        | some m =>
          by_cases hgt : m > cfg.noMotionTimeout <;>
            simp [hl, hmin, afterLog_roomLog, afterLog_roomVerboseLog, hgt]
  · simp [afterLog_roomLog]

/-- C10 evidence: the initialisation claim is faithful — `_last_motions`
maps every configured motion sensor to `datetime.datetime.min`
(`lights.py:129-131`) — but the claimed immediate turn-off never happens: at
the failing input (office room straight after `__init__`, an activity-sensor
change at `now = 0` with no activity sensor active, elapsed time
`now - datetime.min` far above the 900 s timeout) the handler raises the
`TypeError` from the one-argument `self._log(...)` at `lights.py:265` before
`_turn_off_lights()` at `lights.py:270` can run, leaving the state unchanged
and performing no effect. -/
theorem initRoomState_datetime_min_no_turn_off :
    (∀ (cfg : RoomConfig) (hass : HassState),
      (initRoomState cfg hass).lastMotions =
        cfg.motionSensors.map (fun s => (s, datetimeMin))) ∧
    onActivitySensorChange officeCfg quietHass 0
      (initRoomState officeCfg quietHass) "switch.pc" =
      ⟨initRoomState officeCfg quietHass, [], some logTypeError⟩ :=
  ⟨fun _ _ => rfl, rfl⟩

/-- A concrete scene-service environment: every entity reads `"off"`, the
clock reads noon on the epoch day, and the random-generator model picks the
first element of the population. -/
def c6Env : SceneEnv := ⟨quietHass, 43200, fun _ pop _ => [pop.headD "Scene.none"]⟩

/-- `random.Random(seed).choices(population, weights)` with the default
`k=1` returns exactly one choice (or raises, which the repository's
`assert len(choices) == 1` would surface); a model with this shape. -/
def WellBehavedRand (env : SceneEnv) : Prop :=
  ∀ seed pop w, ∃ c, env.randChoices seed pop w = [c]

/-- The event payload `{rooms: [...], transition?: t}` of the
`default_scene_turn_on` event contract. -/
def roomsPayload (names : List String) (t : Option Int) :
    List (String × PyValue) :=
  match t with
  | none => [("rooms", PyValue.list (names.map PyValue.str))]
  | some n =>
    [("rooms", PyValue.list (names.map PyValue.str)),
      ("transition", PyValue.int n)]

/-- C6 counterexample: firing the default-scene handler with the unknown room
name `"garage"` raises no assertion or exception — the name is silently
skipped (`ROOM_NAME_MAPPING.get` returns `None` and the loop `continue`s),
with no effects and no error, contradicting the fail-fast claim. -/
theorem unknownRoom_silently_ignored :
    turnOnDefaultScene c6Env [("rooms", PyValue.list [PyValue.str "garage"])] =
      ⟨[], none⟩ := rfl

/-- Under a well-behaved random model, `get_day_stable_random` always
returns a value (the `assert len(choices) == 1` holds). -/
theorem gdsr_ok_of_wellBehaved {env : SceneEnv} (h : WellBehavedRand env)
    (seed : Int) (values : List (String × Nat)) :
    ∃ c, get_day_stable_random env.randChoices env.now seed values = .ok c := by
  obtain ⟨c, hc⟩ := h (startOfDayTimestamp env.now + seed)
    (values.map Prod.fst) (values.map Prod.snd)
  exact ⟨c, by simp [get_day_stable_random, hc]⟩

/-- Under a well-behaved random model, `_get_default_scene_for_room` always
returns a scene (every branch of the source returns a non-`None` value). -/
theorem scene_ok_of_wellBehaved {env : SceneEnv} (h : WellBehavedRand env)
    (room : RoomName) :
    ∃ scene, getDefaultSceneForRoom env room = .ok (some scene) := by
  simp only [getDefaultSceneForRoom]
  split_ifs
  · exact ⟨_, rfl⟩
  · exact ⟨_, rfl⟩
  · exact ⟨_, rfl⟩
  · obtain ⟨c, hc⟩ := gdsr_ok_of_wellBehaved h room.value
      (livingRoomScenes.map (fun x => (x, 1)))
    exact ⟨c, by simp [get_day_stable_random_uniform, hc, Except.map]⟩
  · exact ⟨_, rfl⟩
  · obtain ⟨c, hc⟩ := gdsr_ok_of_wellBehaved h room.value
      (officeScenes.map (fun x => (x, 1)))
    exact ⟨c, by simp [get_day_stable_random_uniform, hc, Except.map]⟩
  · exact ⟨_, rfl⟩

/-- The per-room loop over an all-string name list: unknown names contribute
nothing, known names contribute one `turn_on` effect with the room's
recomputed scene, and no exception escapes. -/
theorem processRooms_map_str {env : SceneEnv} (h : WellBehavedRand env)
    (t : Option Int) (names : List String) :
    processRooms env t (names.map PyValue.str) =
      ⟨names.filterMap (fun n =>
        match roomNameMapping.lookup n with
        | none => none
        | some room =>
          match getDefaultSceneForRoom env room with
          | .ok (some scene) =>
            some (Effect.callService "homeassistant/turn_on" t scene)
          | _ => none), none⟩ := by
  induction names with
  | nil => rfl
  | cons n ns ih =>
    cases hl : roomNameMapping.lookup n with
    | none => simp [processRooms, List.filterMap_cons, hl, ih]
    | some room =>
      obtain ⟨scene, hs⟩ := scene_ok_of_wellBehaved h room
      simp [processRooms, List.filterMap_cons, hl, hs, ih]

/-- The loop hits a non-string room name after a prefix of known/unknown
string names: the `assert isinstance(room_name, str)` fires. -/
theorem processRooms_append_nonstr {env : SceneEnv} (h : WellBehavedRand env)
    (t : Option Int) (names : List String) (v : PyValue)
    (hv : ∀ s, v ≠ PyValue.str s) (rest : List PyValue) :
    (processRooms env t (names.map PyValue.str ++ v :: rest)).error =
      some "AssertionError: room name must be a str" := by
  induction names with
  | nil =>
    cases v with
    | str s => exact absurd rfl (hv s)
    | int k => rfl
    | list l => rfl
    | pynone => rfl
  | cons n ns ih =>
    cases hl : roomNameMapping.lookup n with
    | none => simpa [processRooms, hl] using ih
    | some room =>
      obtain ⟨scene, hs⟩ := scene_ok_of_wellBehaved h room
      simpa [processRooms, hl, hs] using ih

/-- C6 amended: for every payload `{rooms: names, transition?: t}` whose
`rooms` entry is a list of strings, the handler raises nothing; it applies,
for each known named room in order, one `turn_on` of that room's recomputed
default scene (with the payload's transition), while unknown room names are
silently skipped rather than asserted; a payload of only unknown names does
nothing; and malformed payloads — `rooms` missing or not a list, a
non-string room name, a non-int `transition` — fail fast via assertion. -/
theorem turnOnDefaultScene_spec (env : SceneEnv) (names : List String)
    (t : Option Int) (h : WellBehavedRand env) :
    (turnOnDefaultScene env (roomsPayload names t) =
      ⟨names.filterMap (fun n =>
        match roomNameMapping.lookup n with
        | none => none
        | some room =>
          match getDefaultSceneForRoom env room with
          | .ok (some scene) =>
            some (Effect.callService "homeassistant/turn_on" t scene)
          | _ => none), none⟩) ∧
    (∀ n room, n ∈ names → roomNameMapping.lookup n = some room →
      ∃ scene, getDefaultSceneForRoom env room = .ok (some scene) ∧
        Effect.callService "homeassistant/turn_on" t scene ∈
          (turnOnDefaultScene env (roomsPayload names t)).effects) ∧
    ((∀ n ∈ names, roomNameMapping.lookup n = none) →
      turnOnDefaultScene env (roomsPayload names t) = ⟨[], none⟩) ∧
    (∀ v : PyValue, (∀ l, v ≠ PyValue.list l) →
      (turnOnDefaultScene env [("rooms", v)]).error.isSome = true) ∧
    (turnOnDefaultScene env []).error.isSome = true ∧
    (∀ (v : PyValue) (rest : List PyValue), (∀ s, v ≠ PyValue.str s) →
      (turnOnDefaultScene env
        [("rooms", PyValue.list (names.map PyValue.str ++ v :: rest))]).error =
        some "AssertionError: room name must be a str") ∧
    (∀ v : PyValue, v ≠ PyValue.pynone → (∀ k, v ≠ PyValue.int k) →
      (turnOnDefaultScene env
        [("rooms", PyValue.list (names.map PyValue.str)),
          ("transition", v)]).error.isSome = true) := by
  have hmain : turnOnDefaultScene env (roomsPayload names t) =
      ⟨names.filterMap (fun n =>
        match roomNameMapping.lookup n with
        | none => none
        | some room =>
          match getDefaultSceneForRoom env room with
          | .ok (some scene) =>
            some (Effect.callService "homeassistant/turn_on" t scene)
          | _ => none), none⟩ := by
    cases t with
    | none => exact processRooms_map_str h none names
    | some k => exact processRooms_map_str h (some k) names
  refine ⟨hmain, ?_, ?_, ?_, rfl, ?_, ?_⟩
  · intro n room hn hl
    obtain ⟨scene, hs⟩ := scene_ok_of_wellBehaved h room
    refine ⟨scene, hs, ?_⟩
    rw [hmain]
    exact List.mem_filterMap.mpr ⟨n, hn, by simp [hl, hs]⟩
  · intro hall
    rw [hmain]
    have : names.filterMap (fun n =>
        match roomNameMapping.lookup n with
        | none => none
        | some room =>
          match getDefaultSceneForRoom env room with
          | .ok (some scene) =>
            some (Effect.callService "homeassistant/turn_on" t scene)
          | _ => none) = ([] : List Effect) :=
      List.filterMap_eq_nil_iff.mpr (fun n hn => by simp [hall n hn])
    rw [this]
  · intro v hv
    cases v with
    | str s => rfl
    | int k => rfl
    | list l => exact absurd rfl (hv l)
    | pynone => rfl
  · intro v rest hv
    exact processRooms_append_nonstr h none names v hv rest
  · intro v hv1 hv2
    cases v with
    | str s => rfl
    | int k => exact absurd rfl (hv2 k)
    | list l => rfl
    | pynone => exact absurd rfl hv1

theorem turnOnDefaultScene_spec_witness :
    turnOnDefaultScene c6Env (roomsPayload ["kitchen", "garage", "office"] none) =
      ⟨[Effect.callService "homeassistant/turn_on" none "Scene.kitchen_bright",
        Effect.callService "homeassistant/turn_on" none
          "Scene.office_arctic_aurora"], none⟩ ∧
    turnOnDefaultScene c6Env (roomsPayload ["bedroom"] (some 2)) =
      ⟨[Effect.callService "homeassistant/turn_on" (some 2) "Scene.bedroom_dim"],
        none⟩ ∧
    (turnOnDefaultScene c6Env
      [("rooms", PyValue.list [PyValue.str "kitchen", PyValue.int 3])]).error =
      some "AssertionError: room name must be a str" :=
  ⟨(turnOnDefaultScene_spec c6Env ["kitchen", "garage", "office"] none
      (fun _ pop _ => ⟨pop.headD "Scene.none", rfl⟩)).1,
    (turnOnDefaultScene_spec c6Env ["bedroom"] (some 2)
      (fun _ pop _ => ⟨pop.headD "Scene.none", rfl⟩)).1,
    (turnOnDefaultScene_spec c6Env ["kitchen"] none
      (fun _ pop _ => ⟨pop.headD "Scene.none", rfl⟩)).2.2.2.2.2.1
      (PyValue.int 3) [] (fun s => by simp)⟩

end AppDaemon
